import Mathlib

/-!
Verification of the grid-record decoder `GMT_GRID.to_dataarray` from
`pygmt/datatypes.py`.

The decoder reads a `GMT_GRID` record (header, padded value buffer, and the
two coordinate vectors), trims the storage padding, reverses an axis whose
first two coordinates are stored in descending order (together with the
matching axis of the value matrix), and attaches registration and a
geographic-type tag derived from the unit strings.

Modelling choices:
* Double-precision coordinates and single-precision samples appear in the
  decoder only in order comparisons and reorderings, never in arithmetic,
  so both are modelled as `Int`.
* `ctypes` pointer slices (`self.x[:n]`) read exactly `n` items from raw
  memory; reading past the end of the buffer held by the record is
  undefined behaviour and is modelled as an explicit out-of-bounds error.
* Python list indexing out of range (`x[1]` on a one-element list) raises
  `IndexError`, modelled as `DecodeError.indexError`.
* `xarray.DataArray(data, coords=[y, x])` raises `ValueError` when the
  coordinate lengths do not match the array shape; this is modelled as
  `DecodeError.valueError`.
* `DecodeError.malformedRecord` is the error kind named by the
  specification; it is part of the error type so that statements about it
  can be made, and the development shows the code never produces it.
-/

/-- Padding on the west, east, south and north sides
(`pad : c_uint * 4` in `GMT_GRID_HEADER`, indices 0..3 in that order). -/
structure GMT_PAD where
  west : Nat
  east : Nat
  south : Nat
  north : Nat
deriving DecidableEq, Repr

/-- The GMT grid header (`GMT_GRID_HEADER` in `pygmt/datatypes.py`).
Fields are kept in source order; low-level bookkeeping fields that no claim
mentions (`bits`, `complex_mode`, `type`, `n_bands`, `mem_layout`, the
projection strings and the `hidden` pointer) are omitted. -/
structure GMT_GRID_HEADER where
  n_columns : Nat
  n_rows : Nat
  registration : Nat
  wesn : Int × Int × Int × Int
  z_min : Int
  z_max : Int
  inc : Int × Int
  z_scale_factor : Int
  z_add_offset : Int
  x_units : String
  y_units : String
  z_units : String
  title : String
  command : String
  remark : String
  nm : Nat
  size : Nat
  mx : Nat
  my : Nat
  pad : GMT_PAD
  nan_value : Int
  xy_off : Int
deriving DecidableEq, Repr

/-- The GMT grid record (`GMT_GRID` in `pygmt/datatypes.py`): a header, the
padded row-major value buffer, and the x and y coordinate vectors. -/
structure GMT_GRID where
  header : GMT_GRID_HEADER
  data : List Int
  x : List Int
  y : List Int
deriving DecidableEq, Repr

/-- Failure modes of the decoder.  `malformedRecord` is the kind named by
the specification; the remaining three are the failures the Python code can
actually produce (out-of-bounds ctypes read, Python `IndexError`, xarray
shape `ValueError`). -/
inductive DecodeError where
  | malformedRecord
  | oobRead
  | indexError
  | valueError
deriving DecidableEq, Repr

/-- The decoded, coordinate-labelled array (the `xarray.DataArray` built by
`to_dataarray`): the trimmed and re-oriented value matrix, the `lat` and
`lon` coordinate vectors, and the two metadata tags. -/
structure DataArray where
  data : List (List Int)
  y : List Int
  x : List Int
  registration : Nat
  gtype : Nat
deriving DecidableEq, Repr

/-- A ctypes pointer slice `p[:n]`: reads exactly `n` items; reading past
the record's buffer is an out-of-bounds read. -/
def ptrSlice (l : List α) (n : Nat) : Except DecodeError (List α) :=
  if n ≤ l.length then Except.ok (l.take n) else Except.error DecodeError.oobRead

/-- Python list indexing `l[i]` for `i ≥ 0`: `IndexError` when out of range. -/
def pyGet (l : List α) (i : Nat) : Except DecodeError α :=
  match l.get? i with
  | some a => Except.ok a
  | none => Except.error DecodeError.indexError

/-- Clamp a Python slice bound to `[0, len]`, resolving negative indices
from the end of the sequence, as Python slicing does. -/
def pyBound (len : Nat) (i : Int) : Nat :=
  let j := if i < 0 then i + len else i
  if j < 0 then 0 else min j.toNat len

/-- Python slicing `l[i:j]` (step 1). -/
def pySlice (l : List α) (i j : Int) : List α :=
  (l.drop (pyBound l.length i)).take (pyBound l.length j - pyBound l.length i)

/-- `np.array(flat).reshape((my, mx))` on a buffer of `my * mx` items:
split the flat row-major buffer into `my` rows of `mx`. -/
def reshape2d (l : List α) (my mx : Nat) : List (List α) :=
  match my with
  | 0 => []
  | m + 1 => l.take mx :: reshape2d (l.drop mx) m mx

def longitudeUnits : String := "longitude [degrees_east]"

def latitudeUnits : String := "latitude [degrees_north]"

/-- `GMT_GRID.to_dataarray` from `pygmt/datatypes.py`, line by line:
slice the coordinate vectors to `n_columns` / `n_rows` items and the data
buffer to `mx * my` items, reshape to `my × mx` and trim the padding
(`[pad[2] : my - pad[3], pad[0] : mx - pad[1]]`), reverse each axis whose
first coordinate exceeds its second together with the matching axis of the
matrix (`np.fliplr` / `np.flipud`), then build the `DataArray` (which
checks that coordinate lengths match the array shape) with registration
copied from the header and the geographic-type tag from the unit strings. -/
def to_dataarray (g : GMT_GRID) : Except DecodeError DataArray :=
  (ptrSlice g.x g.header.n_columns).bind fun x =>
  (ptrSlice g.y g.header.n_rows).bind fun y =>
  (ptrSlice g.data (g.header.mx * g.header.my)).bind fun flat =>
  let data0 :=
    (pySlice (reshape2d flat g.header.my g.header.mx)
        (g.header.pad.south : Int)
        ((g.header.my : Int) - (g.header.pad.north : Int))).map
      fun row =>
        pySlice row (g.header.pad.west : Int)
          ((g.header.mx : Int) - (g.header.pad.east : Int))
  (pyGet x 0).bind fun x0 =>
  (pyGet x 1).bind fun x1 =>
  let x' := if x0 > x1 then x.reverse else x
  let data1 := if x0 > x1 then data0.map List.reverse else data0
  (pyGet y 0).bind fun y0 =>
  (pyGet y 1).bind fun y1 =>
  let y' := if y0 > y1 then y.reverse else y
  let data2 := if y0 > y1 then data1.reverse else data1
  if data2.length = y'.length ∧ ∀ row ∈ data2, row.length = x'.length then
    Except.ok
      { data := data2
        y := y'
        x := x'
        registration := g.header.registration
        gtype :=
          if g.header.x_units = longitudeUnits ∧ g.header.y_units = latitudeUnits
          then 1 else 0 }
  else Except.error DecodeError.valueError

/-- The §4.1 input constraints on a grid record: buffer length matches the
declared padded extent, coordinate vector lengths match the declared
logical extent, the extents are nonzero, and the padding arithmetic
`mx = n_columns + pad.west + pad.east`, `my = n_rows + pad.south + pad.north`
holds. -/
def ValidRecord (g : GMT_GRID) : Prop :=
  g.data.length = g.header.mx * g.header.my ∧
  g.x.length = g.header.n_columns ∧
  g.y.length = g.header.n_rows ∧
  1 ≤ g.header.n_columns ∧
  1 ≤ g.header.n_rows ∧
  g.header.mx = g.header.n_columns + g.header.pad.west + g.header.pad.east ∧
  g.header.my = g.header.n_rows + g.header.pad.south + g.header.pad.north

instance (g : GMT_GRID) : Decidable (ValidRecord g) := by
  unfold ValidRecord; infer_instance

/-- The padding-trimmed value matrix: the rows `[pad.south, pad.south + n_rows)`
and columns `[pad.west, pad.west + n_columns)` of the buffer reshaped to
`my × mx`.  Under the header arithmetic of `ValidRecord` these are exactly
the rows `[pad.south, my - pad.north)` and columns `[pad.west, mx - pad.east)`. -/
def trimSpec (g : GMT_GRID) : List (List Int) :=
  (((reshape2d g.data g.header.my g.header.mx).drop g.header.pad.south).take
      g.header.n_rows).map
    fun r => (r.drop g.header.pad.west).take g.header.n_columns

/-- The storage-order test the code applies to the x axis: first coordinate
strictly greater than the second (with `getD` standing for the list accesses,
meaningful when the vector has at least two entries). -/
def xDescending (g : GMT_GRID) : Prop := g.x.getD 0 0 > g.x.getD 1 0

/-- The storage-order test the code applies to the y axis. -/
def yDescending (g : GMT_GRID) : Prop := g.y.getD 0 0 > g.y.getD 1 0

instance (g : GMT_GRID) : Decidable (xDescending g) := by
  unfold xDescending; infer_instance

instance (g : GMT_GRID) : Decidable (yDescending g) := by
  unfold yDescending; infer_instance

/-- The re-orientation the decoder applies to the trimmed matrix: reverse
every row when the x axis is stored descending (`np.fliplr`), then reverse
the row order when the y axis is stored descending (`np.flipud`). -/
def orientData (g : GMT_GRID) (T : List (List Int)) : List (List Int) :=
  if yDescending g then
    (if xDescending g then T.map List.reverse else T).reverse
  else
    if xDescending g then T.map List.reverse else T

/-- A record with the two unit strings replaced. -/
def withUnits (g : GMT_GRID) (u v : String) : GMT_GRID :=
  { g with header := { g.header with x_units := u, y_units := v } }

theorem ok_bind (a : α) (f : α → Except DecodeError β) :
    (Except.ok a : Except DecodeError α).bind f = f a := rfl

theorem error_bind (e : DecodeError) (f : α → Except DecodeError β) :
    (Except.error e : Except DecodeError α).bind f = Except.error e := rfl

theorem ptrSlice_eq_ok {l : List α} {n : Nat} {v : List α} :
    ptrSlice l n = Except.ok v ↔ n ≤ l.length ∧ v = l.take n := by
  unfold ptrSlice
  split_ifs with h
  · simp [eq_comm, h]
  · simp [h]

theorem ptrSlice_eq_error {l : List α} {n : Nat} {e : DecodeError} :
    ptrSlice l n = Except.error e ↔ l.length < n ∧ e = DecodeError.oobRead := by
  unfold ptrSlice
  split_ifs with h
  · simp [Nat.not_lt.mpr h]
  · simp [eq_comm, Nat.lt_of_not_le h]

theorem ptrSlice_all (l : List α) (h : n = l.length) :
    ptrSlice l n = Except.ok l := by
  subst h; simp [ptrSlice]

theorem pyGet_eq_ok {l : List α} {i : Nat} {a : α} :
    pyGet l i = Except.ok a ↔ l.get? i = some a := by
  unfold pyGet
  cases h : l.get? i <;> simp

theorem pyGet_eq_error {l : List α} {i : Nat} {e : DecodeError} :
    pyGet l i = Except.error e ↔ l.length ≤ i ∧ e = DecodeError.indexError := by
  unfold pyGet
  cases h : l.get? i with
  | none => simp [List.get?_eq_none.mp h, eq_comm]
  | some a =>
    have := List.get?_eq_some.mp h
    simp [Nat.not_le.mpr this.1]

theorem pyGet_ok_getD (l : List Int) (i : Nat) (h : i < l.length) :
    pyGet l i = Except.ok (l.getD i 0) := by
  rw [pyGet_eq_ok]
  rw [List.getD_eq_getElem?_getD, ← List.get?_eq_getElem?]
  cases hg : l.get? i with
  | none => exact absurd (List.get?_eq_none.mp hg) (Nat.not_le.mpr h)
  | some a => simp

theorem pySlice_natCast (l : List α) (s t : Nat) (hs : s ≤ l.length)
    (ht : t ≤ l.length) :
    pySlice l (s : Int) (t : Int) = (l.drop s).take (t - s) := by
  unfold pySlice pyBound
  have hs0 : ¬ ((s : Int) < 0) := by omega
  have ht0 : ¬ ((t : Int) < 0) := by omega
  simp only [hs0, ht0, if_false, Int.toNat_natCast]
  rw [min_eq_left hs, min_eq_left ht]

theorem reshape2d_length (l : List α) (my mx : Nat) :
    (reshape2d l my mx).length = my := by
  induction my generalizing l with
  | zero => simp [reshape2d]
  | succ m ih => simp [reshape2d, ih]

theorem reshape2d_row_length (l : List α) (my mx : Nat)
    (h : l.length = my * mx) :
    ∀ r ∈ reshape2d l my mx, r.length = mx := by
  induction my generalizing l with
  | zero => simp [reshape2d]
  | succ m ih =>
    intro r hr
    rw [reshape2d] at hr
    rcases List.mem_cons.mp hr with h1 | h2
    · subst h1
      rw [List.length_take, h]
      have : mx ≤ (m + 1) * mx := by
        calc mx = 1 * mx := (one_mul mx).symm
        _ ≤ (m + 1) * mx := Nat.mul_le_mul_right mx (by omega)
      omega
    · refine ih (l.drop mx) ?_ r h2
      rw [List.length_drop, h]
      calc (m + 1) * mx - mx = m * mx + mx - mx := by ring_nf
      _ = m * mx := by omega

theorem trimSpec_length (g : GMT_GRID) (hv : ValidRecord g) :
    (trimSpec g).length = g.header.n_rows := by
  obtain ⟨hd, hx, hy, hc1, hr1, hmx, hmy⟩ := hv
  unfold trimSpec
  rw [List.length_map, List.length_take, List.length_drop, reshape2d_length]
  omega

theorem trimSpec_row_length (g : GMT_GRID) (hv : ValidRecord g) :
    ∀ r ∈ trimSpec g, r.length = g.header.n_columns := by
  obtain ⟨hd, hx, hy, hc1, hr1, hmx, hmy⟩ := hv
  unfold trimSpec
  intro r hr'
  rcases List.mem_map.mp hr' with ⟨r0, hr0, rfl⟩
  have hr0' : r0 ∈ reshape2d g.data g.header.my g.header.mx :=
    List.mem_of_mem_drop (List.mem_of_mem_take hr0)
  have hlen : r0.length = g.header.mx :=
    reshape2d_row_length g.data _ _ (by rw [hd, Nat.mul_comm]) r0 hr0'
  rw [List.length_take, List.length_drop, hlen]
  omega

/-- On a record satisfying the §4.1 constraints with at least two columns and
two rows, the decoder succeeds and returns exactly the trimmed matrix with
the two descending-axis reversals applied, the (possibly reversed)
coordinate vectors, the registration, and the unit-derived type tag. -/
theorem to_dataarray_valid (g : GMT_GRID) (hv : ValidRecord g)
    (hc : 2 ≤ g.header.n_columns) (hr : 2 ≤ g.header.n_rows) :
    to_dataarray g = Except.ok
      { data := orientData g (trimSpec g)
        y := if yDescending g then g.y.reverse else g.y
        x := if xDescending g then g.x.reverse else g.x
        registration := g.header.registration
        gtype :=
          if g.header.x_units = longitudeUnits ∧ g.header.y_units = latitudeUnits
          then 1 else 0 } := by
  have hTlen : (trimSpec g).length = g.header.n_rows := trimSpec_length g hv
  have hTrow : ∀ r ∈ trimSpec g, r.length = g.header.n_columns :=
    trimSpec_row_length g hv
  obtain ⟨hd, hx, hy, hc1, hr1, hmx, hmy⟩ := hv
  have h1 : ptrSlice g.x g.header.n_columns = Except.ok g.x :=
    ptrSlice_all _ hx.symm
  have h2 : ptrSlice g.y g.header.n_rows = Except.ok g.y :=
    ptrSlice_all _ hy.symm
  have h3 : ptrSlice g.data (g.header.mx * g.header.my) = Except.ok g.data :=
    ptrSlice_all _ hd.symm
  have hx0 : pyGet g.x 0 = Except.ok (g.x.getD 0 0) := pyGet_ok_getD _ _ (by omega)
  have hx1 : pyGet g.x 1 = Except.ok (g.x.getD 1 0) := pyGet_ok_getD _ _ (by omega)
  have hy0 : pyGet g.y 0 = Except.ok (g.y.getD 0 0) := pyGet_ok_getD _ _ (by omega)
  have hy1 : pyGet g.y 1 = Except.ok (g.y.getD 1 0) := pyGet_ok_getD _ _ (by omega)
  have htrim :
      ((pySlice (reshape2d g.data g.header.my g.header.mx)
          (g.header.pad.south : Int)
          ((g.header.my : Int) - (g.header.pad.north : Int))).map
        fun row =>
          pySlice row (g.header.pad.west : Int)
            ((g.header.mx : Int) - (g.header.pad.east : Int))) = trimSpec g := by
    have hcast : ((g.header.my : Int) - (g.header.pad.north : Int))
        = ((g.header.pad.south + g.header.n_rows : Nat) : Int) := by
      push_cast; omega
    rw [hcast,
      pySlice_natCast _ _ _ (by rw [reshape2d_length]; omega)
        (by rw [reshape2d_length]; omega),
      Nat.add_sub_cancel_left]
    unfold trimSpec
    apply List.map_congr_left
    intro r hrr
    have hrlen : r.length = g.header.mx :=
      reshape2d_row_length _ _ _ (by rw [hd, Nat.mul_comm]) r
        (List.mem_of_mem_drop (List.mem_of_mem_take hrr))
    have hcast2 : ((g.header.mx : Int) - (g.header.pad.east : Int))
        = ((g.header.pad.west + g.header.n_columns : Nat) : Int) := by
      push_cast; omega
    rw [hcast2, pySlice_natCast _ _ _ (by omega) (by omega),
      Nat.add_sub_cancel_left]
  have hmaprev_row : ∀ r ∈ (trimSpec g).map List.reverse,
      r.length = g.header.n_columns := by
    intro r hr'
    rcases List.mem_map.mp hr' with ⟨r0, h0, rfl⟩
    simp [hTrow r0 h0]
  simp only [to_dataarray, h1, h2, h3, hx0, hx1, hy0, hy1, ok_bind]
  rw [htrim]
  simp only [orientData, xDescending, yDescending]
  by_cases hxd : g.x.getD 0 0 > g.x.getD 1 0 <;>
    by_cases hyd : g.y.getD 0 0 > g.y.getD 1 0
  · simp only [if_pos hxd, if_pos hyd]
    rw [if_pos]
    constructor
    · simp [hTlen, hy]
    · intro row hrow
      rw [List.mem_reverse] at hrow
      simp [hmaprev_row row hrow, hx]
  · simp only [if_pos hxd, if_neg hyd]
    rw [if_pos]
    constructor
    · simp [hTlen, hy]
    · intro row hrow
      simp [hmaprev_row row hrow, hx]
  · simp only [if_neg hxd, if_pos hyd]
    rw [if_pos]
    constructor
    · simp [hTlen, hy]
    · intro row hrow
      rw [List.mem_reverse] at hrow
      simp [hTrow row hrow, hx]
  · simp only [if_neg hxd, if_neg hyd]
    rw [if_pos]
    constructor
    · simp [hTlen, hy]
    · intro row hrow
      simp [hTrow row hrow, hx]

theorem getD_of_get? {l : List α} {i : Nat} {a : α} (d : α)
    (h : l.get? i = some a) : l.getD i d = a := by
  rw [List.getD_eq_getElem?_getD, ← List.get?_eq_getElem?, h]
  rfl

/-- Everything a successful decode implies about the input and the output:
the record reached the coordinate comparisons (so both logical extents are
at least 2 and the buffers are long enough), each output axis is the stored
axis slice or its reverse according to the comparison of its first two
entries only, and the metadata tags are as the code computes them. -/
theorem to_dataarray_ok_inv (g : GMT_GRID) (out : DataArray)
    (h : to_dataarray g = Except.ok out) :
    2 ≤ g.header.n_columns ∧ 2 ≤ g.header.n_rows ∧
    g.header.n_columns ≤ g.x.length ∧ g.header.n_rows ≤ g.y.length ∧
    g.header.mx * g.header.my ≤ g.data.length ∧
    out.x = (if (g.x.take g.header.n_columns).getD 0 0
        > (g.x.take g.header.n_columns).getD 1 0
      then (g.x.take g.header.n_columns).reverse
      else g.x.take g.header.n_columns) ∧
    out.y = (if (g.y.take g.header.n_rows).getD 0 0
        > (g.y.take g.header.n_rows).getD 1 0
      then (g.y.take g.header.n_rows).reverse
      else g.y.take g.header.n_rows) ∧
    out.registration = g.header.registration ∧
    out.gtype = (if g.header.x_units = longitudeUnits
        ∧ g.header.y_units = latitudeUnits then 1 else 0) := by
  simp only [to_dataarray] at h
  rcases hsx : ptrSlice g.x g.header.n_columns with e | xv
  · simp only [hsx, error_bind] at h
    exact Except.noConfusion h
  · simp only [hsx, ok_bind] at h
    rcases hsy : ptrSlice g.y g.header.n_rows with e | yv
    · simp only [hsy, error_bind] at h
      exact Except.noConfusion h
    · simp only [hsy, ok_bind] at h
      rcases hsd : ptrSlice g.data (g.header.mx * g.header.my) with e | dv
      · simp only [hsd, error_bind] at h
        exact Except.noConfusion h
      · simp only [hsd, ok_bind] at h
        rcases hg0 : pyGet xv 0 with e | x0
        · simp only [hg0, error_bind] at h
          exact Except.noConfusion h
        · simp only [hg0, ok_bind] at h
          rcases hg1 : pyGet xv 1 with e | x1
          · simp only [hg1, error_bind] at h
            exact Except.noConfusion h
          · simp only [hg1, ok_bind] at h
            rcases hh0 : pyGet yv 0 with e | y0
            · simp only [hh0, error_bind] at h
              exact Except.noConfusion h
            · simp only [hh0, ok_bind] at h
              rcases hh1 : pyGet yv 1 with e | y1
              · simp only [hh1, error_bind] at h
                exact Except.noConfusion h
              · simp only [hh1, ok_bind] at h
                obtain ⟨hxle, hxv⟩ := ptrSlice_eq_ok.mp hsx
                obtain ⟨hyle, hyv⟩ := ptrSlice_eq_ok.mp hsy
                obtain ⟨hdle, hdv⟩ := ptrSlice_eq_ok.mp hsd
                subst hxv hyv hdv
                obtain ⟨hx1lt, -⟩ :=
                  List.get?_eq_some.mp (pyGet_eq_ok.mp hg1)
                obtain ⟨hy1lt, -⟩ :=
                  List.get?_eq_some.mp (pyGet_eq_ok.mp hh1)
                rw [List.length_take] at hx1lt hy1lt
                have hgd0 : (g.x.take g.header.n_columns).getD 0 0 = x0 :=
                  getD_of_get? 0 (pyGet_eq_ok.mp hg0)
                have hgd1 : (g.x.take g.header.n_columns).getD 1 0 = x1 :=
                  getD_of_get? 0 (pyGet_eq_ok.mp hg1)
                have hhd0 : (g.y.take g.header.n_rows).getD 0 0 = y0 :=
                  getD_of_get? 0 (pyGet_eq_ok.mp hh0)
                have hhd1 : (g.y.take g.header.n_rows).getD 1 0 = y1 :=
                  getD_of_get? 0 (pyGet_eq_ok.mp hh1)
                rw [ite_eq_iff] at h
                rcases h with ⟨hcond, h⟩ | ⟨hcond, h⟩
                · rw [Except.ok.injEq] at h
                  subst h
                  refine ⟨by omega, by omega, hxle, hyle, hdle, ?_, ?_, rfl, rfl⟩
                  · rw [hgd0, hgd1]
                  · rw [hhd0, hhd1]
                · exact Except.noConfusion h

/-- The decoder never produces the specification's `malformedRecord` error:
its only failure modes are the out-of-bounds read, the index error at the
coordinate comparisons, and the shape check of the array constructor. -/
theorem to_dataarray_ne_malformed (g : GMT_GRID) :
    to_dataarray g ≠ Except.error DecodeError.malformedRecord := by
  intro h
  simp only [to_dataarray] at h
  rcases hsx : ptrSlice g.x g.header.n_columns with e | xv
  · rw [hsx, error_bind, (ptrSlice_eq_error.mp hsx).2] at h
    simp at h
  · simp only [hsx, ok_bind] at h
    rcases hsy : ptrSlice g.y g.header.n_rows with e | yv
    · rw [hsy, error_bind, (ptrSlice_eq_error.mp hsy).2] at h
      simp at h
    · simp only [hsy, ok_bind] at h
      rcases hsd : ptrSlice g.data (g.header.mx * g.header.my) with e | dv
      · rw [hsd, error_bind, (ptrSlice_eq_error.mp hsd).2] at h
        simp at h
      · simp only [hsd, ok_bind] at h
        rcases hg0 : pyGet xv 0 with e | x0
        · rw [hg0, error_bind, (pyGet_eq_error.mp hg0).2] at h
          simp at h
        · simp only [hg0, ok_bind] at h
          rcases hg1 : pyGet xv 1 with e | x1
          · rw [hg1, error_bind, (pyGet_eq_error.mp hg1).2] at h
            simp at h
          · simp only [hg1, ok_bind] at h
            rcases hh0 : pyGet yv 0 with e | y0
            · rw [hh0, error_bind, (pyGet_eq_error.mp hh0).2] at h
              simp at h
            · simp only [hh0, ok_bind] at h
              rcases hh1 : pyGet yv 1 with e | y1
              · rw [hh1, error_bind, (pyGet_eq_error.mp hh1).2] at h
                simp at h
              · simp only [hh1, ok_bind] at h
                rw [ite_eq_iff] at h
                rcases h with ⟨-, h⟩ | ⟨-, h⟩
                · exact Except.noConfusion h
                · simp at h

/-- A record declaring zero columns reaches `x[0]` on an empty slice and
fails with the Python index error. -/
theorem to_dataarray_zero_cols (g : GMT_GRID)
    (hc0 : g.header.n_columns = 0)
    (hyle : g.header.n_rows ≤ g.y.length)
    (hdle : g.header.mx * g.header.my ≤ g.data.length) :
    to_dataarray g = Except.error DecodeError.indexError := by
  have h1 : ptrSlice g.x g.header.n_columns = Except.ok [] := by
    rw [hc0]; simp [ptrSlice]
  have h2 : ptrSlice g.y g.header.n_rows
      = Except.ok (g.y.take g.header.n_rows) := by
    simp [ptrSlice, hyle]
  have h3 : ptrSlice g.data (g.header.mx * g.header.my)
      = Except.ok (g.data.take (g.header.mx * g.header.my)) := by
    simp [ptrSlice, hdle]
  have h4 : pyGet ([] : List Int) 0 = Except.error DecodeError.indexError := rfl
  simp only [to_dataarray, h1, h2, h3, h4, ok_bind, error_bind]

/-- A record declaring zero rows fails with the Python index error: either
already at `x[0]`/`x[1]`, or at `y[0]` on the empty y slice. -/
theorem to_dataarray_zero_rows (g : GMT_GRID)
    (hr0 : g.header.n_rows = 0)
    (hxle : g.header.n_columns ≤ g.x.length)
    (hdle : g.header.mx * g.header.my ≤ g.data.length) :
    to_dataarray g = Except.error DecodeError.indexError := by
  have h1 : ptrSlice g.x g.header.n_columns
      = Except.ok (g.x.take g.header.n_columns) := by
    simp [ptrSlice, hxle]
  have h2 : ptrSlice g.y g.header.n_rows = Except.ok [] := by
    rw [hr0]; simp [ptrSlice]
  have h3 : ptrSlice g.data (g.header.mx * g.header.my)
      = Except.ok (g.data.take (g.header.mx * g.header.my)) := by
    simp [ptrSlice, hdle]
  have h4 : pyGet ([] : List Int) 0 = Except.error DecodeError.indexError := rfl
  simp only [to_dataarray, h1, h2, h3, h4, ok_bind, error_bind]
  rcases hg0 : pyGet (g.x.take g.header.n_columns) 0 with e | x0
  · rw [(pyGet_eq_error.mp hg0).2, error_bind]
  · simp only [ok_bind]
    rcases hg1 : pyGet (g.x.take g.header.n_columns) 1 with e | x1
    · rw [(pyGet_eq_error.mp hg1).2, error_bind]
    · simp only [ok_bind, error_bind]

/-- A record whose buffer is shorter than the declared `mx * my` items
fails with the out-of-bounds read at the data slice. -/
theorem to_dataarray_short_data (g : GMT_GRID)
    (hshort : g.data.length < g.header.mx * g.header.my)
    (hxle : g.header.n_columns ≤ g.x.length)
    (hyle : g.header.n_rows ≤ g.y.length) :
    to_dataarray g = Except.error DecodeError.oobRead := by
  have h1 : ptrSlice g.x g.header.n_columns
      = Except.ok (g.x.take g.header.n_columns) := by
    simp [ptrSlice, hxle]
  have h2 : ptrSlice g.y g.header.n_rows
      = Except.ok (g.y.take g.header.n_rows) := by
    simp [ptrSlice, hyle]
  have h3 : ptrSlice g.data (g.header.mx * g.header.my)
      = Except.error DecodeError.oobRead := by
    simp [ptrSlice, Nat.not_le.mpr hshort]
  simp only [to_dataarray, h1, h2, h3, ok_bind, error_bind]

theorem flatten_map_reverse_perm (L : List (List α)) :
    ((L.map List.reverse).flatten).Perm L.flatten := by
  induction L with
  | nil => simp
  | cons a L ih =>
    simp only [List.map_cons, List.flatten_cons]
    exact (a.reverse_perm).append ih

theorem flatten_reverse_perm (L : List (List α)) :
    (L.reverse.flatten).Perm L.flatten := by
  induction L with
  | nil => simp
  | cons a L ih =>
    simp only [List.reverse_cons, List.flatten_append, List.flatten_cons,
      List.flatten_nil, List.append_nil]
    exact (List.perm_append_comm).trans (List.Perm.append_left a ih)

theorem getD_lt_of_chain_lt (l : List Int) (h2 : 2 ≤ l.length)
    (h : List.Chain' (· < ·) l) : l.getD 0 0 < l.getD 1 0 := by
  rcases l with - | ⟨a, - | ⟨b, t⟩⟩
  · simp at h2
  · simp at h2
  · exact (List.chain'_cons.mp h).1

theorem getD_gt_of_chain_gt (l : List Int) (h2 : 2 ≤ l.length)
    (h : List.Chain' (· > ·) l) : l.getD 0 0 > l.getD 1 0 := by
  rcases l with - | ⟨a, - | ⟨b, t⟩⟩
  · simp at h2
  · simp at h2
  · exact (List.chain'_cons.mp h).1

/-- Shape of `orientData`: the reversals never change the number of rows. -/
theorem orientData_length (g : GMT_GRID) (T : List (List Int)) :
    (orientData g T).length = T.length := by
  unfold orientData
  split_ifs <;> simp

/-- Shape of `orientData`: the reversals never change the length of a row. -/
theorem orientData_row_length (g : GMT_GRID) (T : List (List Int)) (c : Nat)
    (hrow : ∀ r ∈ T, r.length = c) :
    ∀ r ∈ orientData g T, r.length = c := by
  unfold orientData
  split_ifs with h1 h2 h3 <;> intro r hr
  · rw [List.mem_reverse] at hr
    rcases List.mem_map.mp hr with ⟨r0, h0, rfl⟩
    simp [hrow r0 h0]
  · rw [List.mem_reverse] at hr
    exact hrow r hr
  · rcases List.mem_map.mp hr with ⟨r0, h0, rfl⟩
    simp [hrow r0 h0]
  · exact hrow r hr

/-- A plain 2×2 header with no padding, used as the base of the concrete
test records below. -/
def baseHeader : GMT_GRID_HEADER :=
  { n_columns := 2, n_rows := 2, registration := 0,
    wesn := (0, 1, 0, 1), z_min := 0, z_max := 0, inc := (1, 1),
    z_scale_factor := 1, z_add_offset := 0,
    x_units := "", y_units := "", z_units := "", title := "",
    command := "", remark := "",
    nm := 4, size := 4, mx := 2, my := 2, pad := ⟨0, 0, 0, 0⟩,
    nan_value := 0, xy_off := 0 }

/-- A valid 2×2 grid with one cell of padding on every side and both axes
stored ascending. -/
def gPadded : GMT_GRID :=
  { header := { baseHeader with mx := 4, my := 4, pad := ⟨1, 1, 1, 1⟩, size := 16 }
    data := [0, 1, 2, 3, 4, 5, 6, 7, 8, 9, 10, 11, 12, 13, 14, 15]
    x := [0, 1], y := [0, 1] }

/-- The output the decoder produces for `gPadded`. -/
def outPadded : DataArray :=
  { data := [[5, 6], [9, 10]], y := [0, 1], x := [0, 1],
    registration := 0, gtype := 0 }

/-- A valid unpadded 2×2 grid with both axes stored descending. -/
def gDesc : GMT_GRID :=
  { header := baseHeader, data := [1, 2, 3, 4], x := [1, 0], y := [5, 3] }

/-- The output the decoder produces for `gDesc`: both axes reversed, the
matrix flipped left-right and upside-down. -/
def outDesc : DataArray :=
  { data := [[4, 3], [2, 1]], y := [3, 5], x := [0, 1],
    registration := 0, gtype := 0 }

/-- A valid unpadded 2×2 grid with both axes stored ascending. -/
def gAsc : GMT_GRID :=
  { header := baseHeader, data := [1, 2, 3, 4], x := [0, 1], y := [0, 1] }

/-- The output the decoder produces for `gAsc`: everything unchanged. -/
def outAsc : DataArray :=
  { data := [[1, 2], [3, 4]], y := [0, 1], x := [0, 1],
    registration := 0, gtype := 0 }

/-- A valid single-column, single-row grid with no padding (the spec's
second concrete scenario). -/
def gSingle : GMT_GRID :=
  { header := { baseHeader with
      n_columns := 1
      n_rows := 1
      mx := 1
      my := 1
      nm := 1
      size := 1 }
    data := [42], x := [7], y := [9] }

/-- A record whose buffer holds 5 values although `mx * my = 4`. -/
def gLenMismatch : GMT_GRID :=
  { header := baseHeader, data := [1, 2, 3, 4, 5], x := [0, 1], y := [0, 1] }

/-- A record declaring zero columns. -/
def gZeroCols : GMT_GRID :=
  { header := { baseHeader with n_columns := 0 }
    data := [1, 2, 3, 4], x := [], y := [0, 1] }

/-- A record whose buffer holds fewer than `mx * my` values. -/
def gShort : GMT_GRID :=
  { header := baseHeader, data := [1, 2, 3], x := [0, 1], y := [0, 1] }

/-- A valid 3-column grid whose x coordinates are not monotone:
`[0, 5, 3]`. -/
def gNonMono : GMT_GRID :=
  { header := { baseHeader with n_columns := 3, mx := 3, nm := 6, size := 6 }
    data := [1, 2, 3, 4, 5, 6], x := [0, 5, 3], y := [0, 1] }

/-- The output the decoder produces for `gNonMono`: the non-monotone x axis
is passed through unsorted. -/
def outNonMono : DataArray :=
  { data := [[1, 2, 3], [4, 5, 6]], y := [0, 1], x := [0, 5, 3],
    registration := 0, gtype := 0 }

/-- A valid grid carrying the exact longitude/latitude unit strings. -/
def gGeo : GMT_GRID :=
  { header := { baseHeader with x_units := longitudeUnits, y_units := latitudeUnits }
    data := [1, 2, 3, 4], x := [0, 1], y := [0, 1] }

/-- Like `gAsc` but with every header field the decoder does not consume
set to a different value. -/
def gUnusedA : GMT_GRID :=
  { header := { baseHeader with
      wesn := (1, 2, 3, 4)
      z_min := -5
      z_max := 99
      inc := (2, 2)
      z_scale_factor := 3
      z_add_offset := 4
      z_units := "uA"
      title := "A"
      command := "cmdA"
      remark := "rA"
      nm := 7
      size := 8
      nan_value := -1
      xy_off := 1 }
    data := [1, 2, 3, 4], x := [0, 1], y := [0, 1] }

/-- Like `gAsc` but with a different title only. -/
def gUnusedB : GMT_GRID :=
  { header := { baseHeader with title := "B" }
    data := [1, 2, 3, 4], x := [0, 1], y := [0, 1] }

/-- Claim C3: the claim states that a record with `n_columns = 1` (and
`n_rows = 1`) is decoded with no order comparison on that axis, and that a
valid 1×1 grid decodes successfully to its one value.  The code contradicts
this: it evaluates `x[0] > x[1]` unconditionally, and on the valid 1×1
record `gSingle` the access `x[1]` is out of range, so decoding fails with
the Python index error instead of succeeding. -/
theorem single_cell_index_error :
    ValidRecord gSingle ∧
    to_dataarray gSingle = Except.error DecodeError.indexError :=
  ⟨by decide, rfl⟩

/-- Claim C2, counterexample: a record whose buffer holds 5 values while
`mx * my = 4` is claimed to fail with `MalformedRecord`; the code instead
decodes it successfully from the first 4 values. -/
theorem length_mismatch_not_rejected :
    gLenMismatch.data.length ≠ gLenMismatch.header.mx * gLenMismatch.header.my ∧
    to_dataarray gLenMismatch = Except.ok
      { data := [[1, 2], [3, 4]], y := [0, 1], x := [0, 1],
        registration := 0, gtype := 0 } :=
  ⟨by decide, rfl⟩

/-- Claim C2 (amended): the code performs no malformed-record validation
and has no `MalformedRecord` failure.  A buffer holding at least `mx * my`
values decodes without any length check (see the counterexample); beyond
that: decoding never fails with `malformedRecord`; a record with
`n_columns = 0` or `n_rows = 0` that reaches the coordinate comparison
fails with the Python index error; and a buffer shorter than `mx * my`
fails with the out-of-bounds read. -/
theorem no_malformed_error (g : GMT_GRID) :
    to_dataarray g ≠ Except.error DecodeError.malformedRecord ∧
    (g.header.n_columns = 0 → g.header.n_rows ≤ g.y.length →
      g.header.mx * g.header.my ≤ g.data.length →
      to_dataarray g = Except.error DecodeError.indexError) ∧
    (g.header.n_rows = 0 → g.header.n_columns ≤ g.x.length →
      g.header.mx * g.header.my ≤ g.data.length →
      to_dataarray g = Except.error DecodeError.indexError) ∧
    (g.data.length < g.header.mx * g.header.my →
      g.header.n_columns ≤ g.x.length → g.header.n_rows ≤ g.y.length →
      to_dataarray g = Except.error DecodeError.oobRead) :=
  ⟨to_dataarray_ne_malformed g,
   fun h1 h2 h3 => to_dataarray_zero_cols g h1 h2 h3,
   fun h1 h2 h3 => to_dataarray_zero_rows g h1 h2 h3,
   fun h1 h2 h3 => to_dataarray_short_data g h1 h2 h3⟩

theorem no_malformed_error_witness :
    to_dataarray gZeroCols = Except.error DecodeError.indexError ∧
    to_dataarray gShort = Except.error DecodeError.oobRead :=
  ⟨(no_malformed_error gZeroCols).2.1 (by decide) (by decide) (by decide),
   (no_malformed_error gShort).2.2.2 (by decide) (by decide) (by decide)⟩

/-- Claim C9: the reversal decision for each axis depends only on the
comparison of the first two stored coordinates: on any successful decode
each output axis is exactly the stored slice or its reverse — never a
sorted permutation — selected by `x[0] > x[1]` (resp. `y[0] > y[1]`). -/
theorem axis_decision_first_two (g : GMT_GRID) (out : DataArray)
    (hok : to_dataarray g = Except.ok out) :
    out.x = (if (g.x.take g.header.n_columns).getD 0 0
        > (g.x.take g.header.n_columns).getD 1 0
      then (g.x.take g.header.n_columns).reverse
      else g.x.take g.header.n_columns) ∧
    out.y = (if (g.y.take g.header.n_rows).getD 0 0
        > (g.y.take g.header.n_rows).getD 1 0
      then (g.y.take g.header.n_rows).reverse
      else g.y.take g.header.n_rows) := by
  obtain ⟨-, -, -, -, -, hx, hy, -, -⟩ := to_dataarray_ok_inv g out hok
  exact ⟨hx, hy⟩

theorem axis_decision_witness :
    outNonMono.x = (if (gNonMono.x.take gNonMono.header.n_columns).getD 0 0
        > (gNonMono.x.take gNonMono.header.n_columns).getD 1 0
      then (gNonMono.x.take gNonMono.header.n_columns).reverse
      else gNonMono.x.take gNonMono.header.n_columns) ∧
    outNonMono.y = (if (gNonMono.y.take gNonMono.header.n_rows).getD 0 0
        > (gNonMono.y.take gNonMono.header.n_rows).getD 1 0
      then (gNonMono.y.take gNonMono.header.n_rows).reverse
      else gNonMono.y.take gNonMono.header.n_rows) :=
  axis_decision_first_two gNonMono outNonMono rfl

/-- Claim C10: two records that agree on every input the decoder consumes
(`n_columns`, `n_rows`, `registration`, `x_units`, `y_units`, `mx`, `my`,
`pad`, the value buffer and the two coordinate vectors) decode identically,
whatever their remaining header fields (`wesn`, `z_min`, `z_max`, `inc`,
`z_scale_factor`, `z_add_offset`, `xy_off`, `nan_value`, `title`,
`command`, `remark`, `nm`, `size`, `z_units`) hold. -/
theorem decode_ignores_unused_fields (g1 g2 : GMT_GRID)
    (hcols : g1.header.n_columns = g2.header.n_columns)
    (hrows : g1.header.n_rows = g2.header.n_rows)
    (hreg : g1.header.registration = g2.header.registration)
    (hxu : g1.header.x_units = g2.header.x_units)
    (hyu : g1.header.y_units = g2.header.y_units)
    (hmx : g1.header.mx = g2.header.mx)
    (hmy : g1.header.my = g2.header.my)
    (hpad : g1.header.pad = g2.header.pad)
    (hdata : g1.data = g2.data) (hx : g1.x = g2.x) (hy : g1.y = g2.y) :
    to_dataarray g1 = to_dataarray g2 := by
  obtain ⟨h1, d1, x1, y1⟩ := g1
  obtain ⟨h2, d2, x2, y2⟩ := g2
  obtain ⟨⟩ := h1
  obtain ⟨⟩ := h2
  dsimp only at hcols hrows hreg hxu hyu hmx hmy hpad hdata hx hy
  subst hcols hrows hreg hxu hyu hmx hmy hpad hdata hx hy
  rfl

theorem decode_ignores_unused_witness :
    to_dataarray gUnusedA = to_dataarray gUnusedB :=
  decode_ignores_unused_fields gUnusedA gUnusedB
    rfl rfl rfl rfl rfl rfl rfl rfl rfl rfl rfl

/-- Claim C1: on a valid record whose x coordinates are stored strictly
descending (with at least two columns), the decoder reverses the x axis and
the column order of the trimmed matrix in lock-step: every output row is
the reverse of the corresponding row of the (y-oriented) trimmed matrix,
so the first output column is the last input column and vice versa; the
symmetric property holds for descending y coordinates and the row order. -/
theorem descending_axis_reversal (g : GMT_GRID) (out : DataArray)
    (hv : ValidRecord g) (hok : to_dataarray g = Except.ok out) :
    (2 ≤ g.header.n_columns → List.Chain' (· > ·) g.x →
      out.x = g.x.reverse ∧
      out.data = (if yDescending g then (trimSpec g).reverse
        else trimSpec g).map List.reverse) ∧
    (2 ≤ g.header.n_rows → List.Chain' (· > ·) g.y →
      out.y = g.y.reverse ∧
      out.data = (if xDescending g then (trimSpec g).map List.reverse
        else trimSpec g).reverse) := by
  obtain ⟨hc2, hr2, -⟩ := to_dataarray_ok_inv g out hok
  have hxlen : g.x.length = g.header.n_columns := hv.2.1
  have hylen : g.y.length = g.header.n_rows := hv.2.2.1
  have hA := to_dataarray_valid g hv hc2 hr2
  rw [hA, Except.ok.injEq] at hok
  subst hok
  constructor
  · intro _ hchx
    have hxd : xDescending g := getD_gt_of_chain_gt g.x (by omega) hchx
    refine ⟨by simp [if_pos hxd], ?_⟩
    show orientData g (trimSpec g) = _
    unfold orientData
    by_cases hyd : yDescending g
    · simp only [if_pos hxd, if_pos hyd, List.map_reverse]
    · simp only [if_pos hxd, if_neg hyd]
  · intro _ hchy
    have hyd : yDescending g := getD_gt_of_chain_gt g.y (by omega) hchy
    refine ⟨by simp [if_pos hyd], ?_⟩
    show orientData g (trimSpec g) = _
    unfold orientData
    by_cases hxd : xDescending g
    · simp only [if_pos hxd, if_pos hyd]
    · simp only [if_neg hxd, if_pos hyd]

theorem descending_axis_witness :
    (outDesc.x = gDesc.x.reverse ∧
      outDesc.data = (if yDescending gDesc then (trimSpec gDesc).reverse
        else trimSpec gDesc).map List.reverse) ∧
    (outDesc.y = gDesc.y.reverse ∧
      outDesc.data = (if xDescending gDesc then (trimSpec gDesc).map List.reverse
        else trimSpec gDesc).reverse) :=
  ⟨(descending_axis_reversal gDesc outDesc (by decide) rfl).1 (by decide)
      (List.chain'_cons.mpr ⟨by decide, List.chain'_singleton 0⟩),
   (descending_axis_reversal gDesc outDesc (by decide) rfl).2 (by decide)
      (List.chain'_cons.mpr ⟨by decide, List.chain'_singleton 3⟩)⟩

/-- Claim C4: on every valid record that decodes, the output matrix is the
re-oriented version of `trimSpec` (the rows `[pad.south, my - pad.north)`
and columns `[pad.west, mx - pad.east)` of the reshaped buffer), and it has
exactly `n_rows` rows of `n_columns` values each — the shape the array
constructor re-validates. -/
theorem trim_shape_preserved (g : GMT_GRID) (out : DataArray)
    (hv : ValidRecord g) (hok : to_dataarray g = Except.ok out) :
    out.data = orientData g (trimSpec g) ∧
    out.data.length = g.header.n_rows ∧
    ∀ r ∈ out.data, r.length = g.header.n_columns := by
  obtain ⟨hc2, hr2, -⟩ := to_dataarray_ok_inv g out hok
  have hA := to_dataarray_valid g hv hc2 hr2
  rw [hA, Except.ok.injEq] at hok
  subst hok
  refine ⟨rfl, ?_, ?_⟩
  · show (orientData g (trimSpec g)).length = _
    rw [orientData_length, trimSpec_length g hv]
  · show ∀ r ∈ orientData g (trimSpec g), _
    exact orientData_row_length g _ _ (trimSpec_row_length g hv)

theorem trim_shape_witness :
    ValidRecord gPadded ∧
    (outPadded.data = orientData gPadded (trimSpec gPadded) ∧
     outPadded.data.length = gPadded.header.n_rows ∧
     ∀ r ∈ outPadded.data, r.length = gPadded.header.n_columns) :=
  ⟨by decide, trim_shape_preserved gPadded outPadded (by decide) rfl⟩

/-- Claim C5, counterexample: the decoder returns grids with non-ascending
axes.  On `gNonMono`, whose stored x axis `[0, 5, 3]` is not monotone, the
decode succeeds and the output x axis is still `[0, 5, 3]`, which is not
strictly ascending. -/
theorem nonmonotone_axis_not_ascending :
    to_dataarray gNonMono = Except.ok outNonMono ∧
    ¬ List.Chain' (· < ·) outNonMono.x :=
  ⟨rfl, by norm_num [outNonMono, List.chain'_cons]⟩

/-- Claim C5 (amended): on a valid record whose stored axes are each
strictly monotone (ascending or descending) — the situation the data model
describes — every decoded grid has strictly ascending x and y axes. -/
theorem monotone_axes_ascending (g : GMT_GRID) (out : DataArray)
    (hv : ValidRecord g)
    (hxm : List.Chain' (· < ·) g.x ∨ List.Chain' (· > ·) g.x)
    (hym : List.Chain' (· < ·) g.y ∨ List.Chain' (· > ·) g.y)
    (hok : to_dataarray g = Except.ok out) :
    List.Chain' (· < ·) out.x ∧ List.Chain' (· < ·) out.y := by
  obtain ⟨hc2, hr2, -⟩ := to_dataarray_ok_inv g out hok
  have hxlen : g.x.length = g.header.n_columns := hv.2.1
  have hylen : g.y.length = g.header.n_rows := hv.2.2.1
  have hA := to_dataarray_valid g hv hc2 hr2
  rw [hA, Except.ok.injEq] at hok
  subst hok
  constructor
  · show List.Chain' (· < ·) (if xDescending g then g.x.reverse else g.x)
    rcases hxm with hasc | hdesc
    · have hnd : ¬ xDescending g := by
        have := getD_lt_of_chain_lt g.x (by omega) hasc
        unfold xDescending
        omega
      rw [if_neg hnd]
      exact hasc
    · have hxd : xDescending g := getD_gt_of_chain_gt g.x (by omega) hdesc
      rw [if_pos hxd, List.chain'_reverse]
      exact hdesc
  · show List.Chain' (· < ·) (if yDescending g then g.y.reverse else g.y)
    rcases hym with hasc | hdesc
    · have hnd : ¬ yDescending g := by
        have := getD_lt_of_chain_lt g.y (by omega) hasc
        unfold yDescending
        omega
      rw [if_neg hnd]
      exact hasc
    · have hyd : yDescending g := getD_gt_of_chain_gt g.y (by omega) hdesc
      rw [if_pos hyd, List.chain'_reverse]
      exact hdesc

theorem monotone_axes_witness :
    List.Chain' (· < ·) outDesc.x ∧ List.Chain' (· < ·) outDesc.y :=
  monotone_axes_ascending gDesc outDesc (by decide)
    (Or.inr (List.chain'_cons.mpr ⟨by decide, List.chain'_singleton 0⟩))
    (Or.inr (List.chain'_cons.mpr ⟨by decide, List.chain'_singleton 3⟩)) rfl

/-- Claim C6: on every valid record that decodes, the multiset of output
values equals the multiset of values of the padding-trimmed input region —
the output is a bijective reindexing (row/column reversals only), with no
value created, destroyed, or altered. -/
theorem value_multiset_preserved (g : GMT_GRID) (out : DataArray)
    (hv : ValidRecord g) (hok : to_dataarray g = Except.ok out) :
    out.data.flatten.Perm (trimSpec g).flatten := by
  obtain ⟨hc2, hr2, -⟩ := to_dataarray_ok_inv g out hok
  have hA := to_dataarray_valid g hv hc2 hr2
  rw [hA, Except.ok.injEq] at hok
  subst hok
  show (orientData g (trimSpec g)).flatten.Perm (trimSpec g).flatten
  unfold orientData
  split_ifs with h1 h2 h3
  · exact (flatten_reverse_perm _).trans (flatten_map_reverse_perm _)
  · exact flatten_reverse_perm _
  · exact flatten_map_reverse_perm _
  · exact List.Perm.refl _

theorem value_multiset_witness :
    outPadded.data.flatten.Perm (trimSpec gPadded).flatten :=
  value_multiset_preserved gPadded outPadded (by decide) rfl

/-- Claim C7: on a valid record whose x and y coordinates are already
stored strictly ascending, the decoder reverses nothing: the output axes
are the stored axes and the output matrix is exactly the trimmed input
layout. -/
theorem ascending_axes_no_reversal (g : GMT_GRID) (out : DataArray)
    (hv : ValidRecord g)
    (hxasc : List.Chain' (· < ·) g.x) (hyasc : List.Chain' (· < ·) g.y)
    (hok : to_dataarray g = Except.ok out) :
    out.x = g.x ∧ out.y = g.y ∧ out.data = trimSpec g := by
  obtain ⟨hc2, hr2, -⟩ := to_dataarray_ok_inv g out hok
  have hxlen : g.x.length = g.header.n_columns := hv.2.1
  have hylen : g.y.length = g.header.n_rows := hv.2.2.1
  have hnx : ¬ xDescending g := by
    have := getD_lt_of_chain_lt g.x (by omega) hxasc
    unfold xDescending
    omega
  have hny : ¬ yDescending g := by
    have := getD_lt_of_chain_lt g.y (by omega) hyasc
    unfold yDescending
    omega
  have hA := to_dataarray_valid g hv hc2 hr2
  rw [hA, Except.ok.injEq] at hok
  subst hok
  refine ⟨?_, ?_, ?_⟩
  · show (if xDescending g then g.x.reverse else g.x) = g.x
    rw [if_neg hnx]
  · show (if yDescending g then g.y.reverse else g.y) = g.y
    rw [if_neg hny]
  · show orientData g (trimSpec g) = trimSpec g
    unfold orientData
    rw [if_neg hny, if_neg hnx]

theorem ascending_axes_witness :
    outAsc.x = gAsc.x ∧ outAsc.y = gAsc.y ∧ outAsc.data = trimSpec gAsc :=
  ascending_axes_no_reversal gAsc outAsc (by decide)
    (List.chain'_cons.mpr ⟨by decide, List.chain'_singleton 1⟩)
    (List.chain'_cons.mpr ⟨by decide, List.chain'_singleton 1⟩) rfl

/-- Replacing the unit strings of a record changes nothing in the decode
except the computed type tag: decoding never starts failing (or stops
failing) because of unit text. -/
theorem to_dataarray_withUnits (g : GMT_GRID) (u v : String) :
    to_dataarray (withUnits g u v)
      = (to_dataarray g).map fun o =>
          { o with gtype :=
              if u = longitudeUnits ∧ v = latitudeUnits then 1 else 0 } := by
  simp only [withUnits, to_dataarray]
  rcases hsx : ptrSlice g.x g.header.n_columns with e | xv
  · simp only [hsx, error_bind]
    rfl
  · simp only [hsx, ok_bind]
    rcases hsy : ptrSlice g.y g.header.n_rows with e | yv
    · simp only [hsy, error_bind]
      rfl
    · simp only [hsy, ok_bind]
      rcases hsd : ptrSlice g.data (g.header.mx * g.header.my) with e | dv
      · simp only [hsd, error_bind]
        rfl
      · simp only [hsd, ok_bind]
        rcases hg0 : pyGet xv 0 with e | x0
        · simp only [hg0, error_bind]
          rfl
        · simp only [hg0, ok_bind]
          rcases hg1 : pyGet xv 1 with e | x1
          · simp only [hg1, error_bind]
            rfl
          · simp only [hg1, ok_bind]
            rcases hh0 : pyGet yv 0 with e | y0
            · simp only [hh0, error_bind]
              rfl
            · simp only [hh0, ok_bind]
              rcases hh1 : pyGet yv 1 with e | y1
              · simp only [hh1, error_bind]
                rfl
              · simp only [hh1, ok_bind]
                repeat' split
                all_goals rfl

/-- Claim C8: the decoder tags the output geographic (`gtype = 1`) exactly
when `x_units` is the byte string `longitude [degrees_east]` and `y_units`
is `latitude [degrees_north]` (case-sensitive exact match of both), and
generic (`gtype = 0`) for every other unit text; replacing the unit strings
never turns a successful decode into an error. -/
theorem gtype_units_exact_match (g : GMT_GRID) (u v : String) :
    to_dataarray (withUnits g u v)
      = (to_dataarray g).map (fun o =>
          { o with gtype :=
              if u = longitudeUnits ∧ v = latitudeUnits then 1 else 0 }) ∧
    ∀ out, to_dataarray g = Except.ok out →
      ((out.gtype = 1 ↔
         (g.header.x_units = longitudeUnits ∧ g.header.y_units = latitudeUnits)) ∧
       (out.gtype = 0 ↔
         ¬(g.header.x_units = longitudeUnits ∧ g.header.y_units = latitudeUnits))) := by
  refine ⟨to_dataarray_withUnits g u v, ?_⟩
  intro out hok
  obtain ⟨-, -, -, -, -, -, -, -, hgt⟩ := to_dataarray_ok_inv g out hok
  by_cases hu : g.header.x_units = longitudeUnits ∧ g.header.y_units = latitudeUnits
  · rw [hgt, if_pos hu]
    constructor
    · exact ⟨fun _ => hu, fun _ => rfl⟩
    · constructor
      · intro h01
        exact absurd h01 (by decide)
      · intro hn
        exact absurd hu hn
  · rw [hgt, if_neg hu]
    constructor
    · constructor
      · intro h01
        exact absurd h01 (by decide)
      · intro h
        exact absurd h hu
    · exact ⟨fun _ => hu, fun _ => rfl⟩

theorem gtype_units_witness :
    ({ data := [[1, 2], [3, 4]], y := [0, 1], x := [0, 1],
        registration := 0, gtype := 1 } : DataArray).gtype = 1
      ↔ (gGeo.header.x_units = longitudeUnits
         ∧ gGeo.header.y_units = latitudeUnits) :=
  ((gtype_units_exact_match gGeo "" "").2
    { data := [[1, 2], [3, 4]], y := [0, 1], x := [0, 1],
      registration := 0, gtype := 1 } rfl).1
